import Mathlib

/-!
BLE-Hangboard: the NimBLE notify example (examples/4-ble_notify_test/main.c)

A shallow embedding of the GATT access callbacks, the GAP event callback and the
periodic update action of the example, with the global variables of the C file
gathered in one record that is passed through every function.

Conventions
* C integers are `Nat` / `Int`; conversions to `int16_t` and `uint8_t` are written
  out with `%`.
* The calls into NimBLE and RIOT (`os_mbuf_append`, `event_timeout_set`,
  `event_timeout_clear`, `nimble_autoadv_start`, `ble_gatts_notify_custom`, `puts`)
  are primitives: each is modelled by its visible effect on the record.
* The answers of the hardware and of the stack that the code cannot influence (the
  RNG and TEMP registers, whether a buffer could be allocated, the result of the
  notify call) are inputs of the functions that consume them.
-/

namespace BLEHangboard

/-! ## Constants -/

/-- Milliseconds between temperature updates (main.c:62). -/
def UPDATE_INTERVAL : Nat := 250

/-- The fixed battery level (main.c:63). -/
def BAT_LEVEL : Nat := 42

/-- Device information strings (main.c:68-72). -/
def _manufacturer_name : String := "Alvarado Inc."

/-- Model number string (main.c:69). -/
def _model_number : String := "A4"

/-- Serial number string (main.c:70). -/
def _serial_number : String := "15263748-9876-x4"

/-- Firmware version string (main.c:71). -/
def _fw_ver : String := "0.0.1"

/-- Hardware version string (main.c:72). -/
def _hw_ver : String := "1.6"

/-- Modelled from the spec: the characteristic type identifiers come from a header
that is not under src/; the values are the Bluetooth assigned numbers, and the two
that main.c repeats locally (GATT_MANUFACTURER_NAME_UUID 0x2A29,
GATT_MODEL_NUMBER_UUID 0x2A24) agree. -/
def BLE_GATT_CHAR_MANUFACTURER_NAME : Nat := 0x2A29

/-- Modelled from the spec: model number string characteristic, see above. -/
def BLE_GATT_CHAR_MODEL_NUMBER_STR : Nat := 0x2A24

/-- Modelled from the spec: serial number string characteristic, see above. -/
def BLE_GATT_CHAR_SERIAL_NUMBER_STR : Nat := 0x2A25

/-- Modelled from the spec: firmware revision string characteristic, see above. -/
def BLE_GATT_CHAR_FW_REV_STR : Nat := 0x2A26

/-- Modelled from the spec: hardware revision string characteristic, see above. -/
def BLE_GATT_CHAR_HW_REV_STR : Nat := 0x2A27

/-- Modelled from the spec: the "attribute not found / unlikely" error signal; the
constant is declared by the radio stack (ATT error code 0x0e). -/
def BLE_ATT_ERR_UNLIKELY : Int := 0x0e

/-- Modelled from the spec: the resource-exhaustion error signal; the constant is
declared by the radio stack (ATT error code 0x11). -/
def BLE_ATT_ERR_INSUFFICIENT_RES : Int := 0x11

/-- Result of a failed `os_mbuf_append` (any non-zero value acts the same way in the
handlers, which only test `res == 0`). -/
def OS_ENOMEM : Int := 1

/-! ## Data model -/

/-- One call of `ble_gatts_notify_custom(conn_handle, attr_handle, om)`, with the bytes
of the buffer handed over. -/
structure Notification where
  conn_handle : Nat
  attr_handle : Nat
  payload : List Nat
deriving DecidableEq, Repr

/-- The global variables of main.c together with the observable effects of the
primitives the code calls.

* `_temp_val_handle`, `_conn_handle`: the two `static uint16_t` globals;
* `_update_timeout_evt`: the timeout event, `some t` when a firing is pending for
  clock value `t` (armed) and `none` when nothing is pending (disarmed);
* `now`: the ZTIMER_MSEC clock;
* `stdout`: what `puts` and `printf` have written;
* `adv_starts`: number of calls of `nimble_autoadv_start`;
* `notified`: the calls of `ble_gatts_notify_custom`, oldest first. -/
structure World where
  _temp_val_handle : Nat
  _conn_handle : Nat
  _update_timeout_evt : Option Nat
  now : Nat
  stdout : List String
  adv_starts : Nat
  notified : List Notification
deriving DecidableEq, Repr

/-- The update timer is armed when a firing is pending. -/
def World.armed (w : World) : Bool := w._update_timeout_evt.isSome

/-- The events `gap_event_cb` is called with: the tag `event->type` and the members
of the union the callback reads. `other` stands for every event type the `switch`
has no case for. -/
inductive ble_gap_event where
  | connect (status : Int) (conn_handle : Nat)
  | disconnect
  | subscribe (attr_handle : Nat) (cur_notify : Nat)
  | other (type : Nat)
deriving DecidableEq, Repr

/-- The response buffer of a read: the bytes stored so far and the number of bytes
the buffer chain can still take. -/
structure os_mbuf where
  data : List Nat
  room : Nat
deriving DecidableEq, Repr

/-- The part of `struct ble_gatt_access_ctxt` the handlers read: the 16-bit UUID of
the characteristic (`ble_uuid_u16(ctxt->chr->uuid)`) and the response buffer. -/
structure ble_gatt_access_ctxt where
  chr_uuid : Nat
  om : os_mbuf
deriving DecidableEq, Repr

/-- What the environment answers during one run of `_temp_update`: the content of
`NRF_RNG->VALUE` once a value is ready, whether `ble_hs_mbuf_from_flat` could
allocate a buffer, and the result of `ble_gatts_notify_custom`. -/
structure Firing where
  rng_value : Nat
  mbuf_ok : Bool
  notify_rc : Int
deriving DecidableEq, Repr

/-- Result of running code that contains `assert`: the program is still running in
the given world, or an assertion failed and it stopped in the given world. -/
inductive Outcome where
  | running (w : World)
  | halted (w : World)
deriving DecidableEq, Repr

/-! ## Primitives of the platform -/

/-- Primitive `puts`: writes the string and a newline. -/
def puts (s : String) (w : World) : World :=
  { w with stdout := w.stdout ++ [s ++ "\n"] }

/-- Primitive `event_timeout_set(&_update_timeout_evt, ms)`: a firing is pending at
`now + ms`; a firing that was pending before is replaced. -/
def event_timeout_set (ms : Nat) (w : World) : World :=
  { w with _update_timeout_evt := some (w.now + ms) }

/-- Primitive `event_timeout_clear(&_update_timeout_evt)`: nothing is pending
afterwards. -/
def event_timeout_clear (w : World) : World :=
  { w with _update_timeout_evt := none }

/-- Primitive `nimble_autoadv_start(NULL)`: counted. -/
def nimble_autoadv_start (w : World) : World :=
  { w with adv_starts := w.adv_starts + 1 }

/-- Primitive `os_mbuf_append(om, data, len)`: returns 0 and stores all bytes when
they fit; otherwise stores the bytes that fit and returns `OS_ENOMEM`. -/
def os_mbuf_append (om : os_mbuf) (bytes : List Nat) : Int × os_mbuf :=
  if bytes.length ≤ om.room then
    (0, { data := om.data ++ bytes, room := om.room - bytes.length })
  else
    (OS_ENOMEM, { data := om.data ++ bytes.take om.room, room := 0 })

/-- Primitive `ble_gatts_notify_custom`: the call is recorded. -/
def ble_gatts_notify_custom (conn_handle attr_handle : Nat) (payload : List Nat)
    (w : World) : World :=
  { w with notified := w.notified ++ [⟨conn_handle, attr_handle, payload⟩] }

/-! ## Integer representation -/

/-- Conversion of an `int` to `int16_t` (reduction modulo 2^16 into -32768..32767). -/
def toInt16 (x : Int) : Int := (x + 32768) % 65536 - 32768

/-- Conversion to `uint8_t`. -/
def toUInt8 (x : Nat) : Nat := x % 256

/-- The two bytes an `int16_t` occupies in memory on the little-endian target: the
16-bit two's-complement pattern, low byte first. -/
def le16 (x : Int) : List Nat :=
  let u := (x % 65536).toNat
  [u % 256, u / 256]

/-- Reading two bytes back as a little-endian signed 16-bit integer. -/
def decode_le16 (bytes : List Nat) : Option Int :=
  match bytes with
  | [lo, hi] => some (toInt16 ((lo : Int) + 256 * (hi : Int)))
  | _ => none

/-- The bytes of a C string, as `strlen` and the copy see them (no terminator). -/
def str_bytes (s : String) : List Nat := s.toList.map Char.toNat

/-! ## The GATT access callbacks (main.c:179-243) -/

/-- `_devinfo_handler` (main.c:179-213). The `switch` selects the string by the
characteristic's 16-bit UUID; the `default` case returns before anything is written
or appended. -/
def _devinfo_handler (conn_handle attr_handle : Nat) (ctxt : ble_gatt_access_ctxt)
    (arg : Nat) (w : World) : Int × os_mbuf × World :=
  let _ := conn_handle
  let _ := attr_handle
  let _ := arg
  let sel : Option (String × String) :=
    if ctxt.chr_uuid = BLE_GATT_CHAR_MANUFACTURER_NAME then
      some ("[READ] device information service: manufacturer name value", _manufacturer_name)
    else if ctxt.chr_uuid = BLE_GATT_CHAR_MODEL_NUMBER_STR then
      some ("[READ] device information service: model number value", _model_number)
    else if ctxt.chr_uuid = BLE_GATT_CHAR_SERIAL_NUMBER_STR then
      some ("[READ] device information service: serial number value", _serial_number)
    else if ctxt.chr_uuid = BLE_GATT_CHAR_FW_REV_STR then
      some ("[READ] device information service: firmware revision value", _fw_ver)
    else if ctxt.chr_uuid = BLE_GATT_CHAR_HW_REV_STR then
      some ("[READ] device information service: hardware revision value", _hw_ver)
    else
      none
  match sel with
  | none => (BLE_ATT_ERR_UNLIKELY, ctxt.om, w)
  | some (msg, str) =>
    let w1 := puts msg w
    let r := os_mbuf_append ctxt.om (str_bytes str)
    (if r.1 = 0 then 0 else BLE_ATT_ERR_INSUFFICIENT_RES, r.2, w1)

/-- `_bas_handler` (main.c:215-226). -/
def _bas_handler (conn_handle attr_handle : Nat) (ctxt : ble_gatt_access_ctxt)
    (arg : Nat) (w : World) : Int × os_mbuf × World :=
  let _ := conn_handle
  let _ := attr_handle
  let _ := arg
  let w1 := puts "[READ] battery level service: battery level value" w
  let level := toUInt8 BAT_LEVEL
  let r := os_mbuf_append ctxt.om [level]
  (if r.1 = 0 then 0 else BLE_ATT_ERR_INSUFFICIENT_RES, r.2, w1)

/-- `read_temperature` (main.c:245-264), given the content of `NRF_TEMP->TEMP` once
the data-ready event is set: the register is converted to `int16_t`, divided by 4
with C's truncating division, and stored in an `int16_t`. -/
def read_temperature (temp_reg : Int) : Int :=
  toInt16 (Int.tdiv (toInt16 temp_reg) 4)

/-- `_temp_handler` (main.c:228-243; the same text is at 3-ble_temp_test/main.c:221-236).
`temperature * 100` is computed in `int` and stored back into the `int16_t`. -/
def _temp_handler (conn_handle attr_handle : Nat) (ctxt : ble_gatt_access_ctxt)
    (arg : Nat) (temp_reg : Int) (w : World) : Int × os_mbuf × World :=
  let _ := conn_handle
  let _ := attr_handle
  let _ := arg
  let w1 := puts "[READ] Environmental Sensing service: Temperature value" w
  let temperature := read_temperature temp_reg
  let temperature := toInt16 (temperature * 100)
  let r := os_mbuf_append ctxt.om (le16 temperature)
  (if r.1 = 0 then 0 else BLE_ATT_ERR_INSUFFICIENT_RES, r.2, w1)

/-! ## The periodic update (main.c:281-325) -/

/-- `read_rng` (main.c:281-294), given the content of `NRF_RNG->VALUE` once a value
is ready: the register is stored in a `uint8_t`. -/
def read_rng (rng_value : Nat) : Nat := toUInt8 rng_value

/-- `_temp_update` (main.c:296-315). The measurement is printed, a buffer with the two
bytes of `temperature` is requested (`assert(om != NULL)`), the notify primitive is
called with `_conn_handle` and `_temp_val_handle` (`assert(res == 0)`), and the
timeout is set again. -/
def _temp_update (f : Firing) (w : World) : Outcome :=
  let temperature := toInt16 (toInt16 (read_rng f.rng_value) * 10)
  let w1 := { w with stdout := w.stdout ++
    ["[NOTIFY] Temperature Characteistic: measurement " ++ toString temperature ++ "\n"] }
  if f.mbuf_ok = false then
    Outcome.halted w1
  else
    let w2 := ble_gatts_notify_custom w1._conn_handle w1._temp_val_handle (le16 temperature) w1
    if f.notify_rc ≠ 0 then
      Outcome.halted w2
    else
      Outcome.running (event_timeout_set UPDATE_INTERVAL w2)

/-- `_start_updating` (main.c:317-320). -/
def _start_updating (w : World) : World :=
  puts "[NOTIFY_ENABLED] Temperature sensing service" (event_timeout_set UPDATE_INTERVAL w)

/-- `_stop_updating` (main.c:322-325). -/
def _stop_updating (w : World) : World :=
  puts "[NOTIFY_DISABLED] Temperature sensing service" (event_timeout_clear w)

/-! ## The GAP event callback (main.c:327-357) -/

/-- `gap_event_cb` (main.c:327-357): the return value and the world afterwards. -/
def gap_event_cb (event : ble_gap_event) (arg : Nat) (w : World) : Int × World :=
  let _ := arg
  match event with
  | ble_gap_event.connect status conn_handle =>
    if status ≠ 0 then
      (0, nimble_autoadv_start (_stop_updating w))
    else
      (0, { w with _conn_handle := conn_handle })
  | ble_gap_event.disconnect =>
    (0, nimble_autoadv_start (_stop_updating w))
  | ble_gap_event.subscribe attr_handle cur_notify =>
    if attr_handle = w._temp_val_handle then
      if cur_notify = 1 then
        (0, _start_updating w)
      else
        (0, _stop_updating w)
    else
      (0, w)
  | ble_gap_event.other _ => (0, w)

/-! ## Boot and the event loop (main.c:361-413) -/

/-- The world when `main` enters `event_loop`: the banner has been printed, the
services are registered (the stack has stored the handle `h` of the temperature
value in `_temp_val_handle`), `_conn_handle` still has its static initial value,
nothing is pending on the timeout event and advertising has been started once. -/
def boot (h : Nat) : World :=
  { _temp_val_handle := h
    _conn_handle := 0
    _update_timeout_evt := none
    now := 0
    stdout := ["NimBLE GATT Server Example\n"]
    adv_starts := 1
    notified := [] }

/-- One millisecond of `event_loop` with the timer: the clock advances, and when the
pending firing is due the timer entry is consumed and `_temp_update` runs. `env`
gives the environment's answers for a firing at a given clock value. -/
def tick (env : Nat → Firing) (w : World) : Outcome :=
  let w1 := { w with now := w.now + 1 }
  match w1._update_timeout_evt with
  | some t =>
    if t ≤ w1.now then
      _temp_update (env w1.now) { w1 with _update_timeout_evt := none }
    else
      Outcome.running w1
  | none => Outcome.running w1

/-- Advancing the scheduler by `ms` milliseconds; stops at the first failed
assertion. -/
def advance (env : Nat → Firing) : Nat → World → Outcome
  | 0, w => Outcome.running w
  | ms + 1, w =>
    match tick env w with
    | Outcome.running w1 => advance env ms w1
    | Outcome.halted w1 => Outcome.halted w1


/-! ## The connection of the data model, next to the code -/

/-- Modelled from the spec: the Connection of the data model (a live connection or
none, and its subscription flag). main.c keeps no such record, only `_conn_handle`,
so it is carried next to the world as a history of the lifecycle events. -/
structure Link where
  live : Bool
  subscribed : Bool
deriving DecidableEq, Repr

/-- Modelled from the spec: the Connection after a lifecycle event. It is created,
with the flag false, by a successful connect; destroyed by a disconnect and by a
failed connect; and a subscribe event for the notifiable characteristic (handle `h`)
sets the flag of the live connection to "notifications enabled". -/
def Link.after (h : Nat) (l : Link) : ble_gap_event → Link
  | ble_gap_event.connect status _ =>
    if status ≠ 0 then { live := false, subscribed := false }
    else { live := true, subscribed := false }
  | ble_gap_event.disconnect => { live := false, subscribed := false }
  | ble_gap_event.subscribe attr_handle cur_notify =>
    if l.live = true ∧ attr_handle = h then { live := true, subscribed := decide (cur_notify = 1) }
    else l
  | ble_gap_event.other _ => l

/-- The notify example as a transition system: the world of the code and the
Connection of the data model. -/
structure Sys where
  w : World
  link : Link
deriving DecidableEq, Repr

/-- The steps of the transition system: a GAP event handled by `gap_event_cb`, time
passing, and a firing of the update action `_temp_update`. -/
inductive Step where
  | gap (event : ble_gap_event) (arg : Nat)
  | elapse (ms : Nat)
  | fire (f : Firing)
deriving DecidableEq, Repr

/-- The boot state: no connection, flag false, timer disarmed. -/
def Sys.boot (h : Nat) : Sys :=
  { w := BLEHangboard.boot h, link := { live := false, subscribed := false } }

/-- One step; `none` when an assertion of `_temp_update` fails and the firmware
stops. A firing is the event loop running the handler of the posted update event: the
timer is one-shot, so its pending entry is gone when the handler starts (as in `tick`)
and the timer is armed afterwards only because `_temp_update` sets it again. The
Connection of the data model plays no part in a firing. -/
def Sys.step (s : Sys) : Step → Option Sys
  | Step.gap event arg =>
    some { w := (gap_event_cb event arg s.w).2, link := s.link.after s.w._temp_val_handle event }
  | Step.elapse ms => some { s with w := { s.w with now := s.w.now + ms } }
  | Step.fire f =>
    match _temp_update f { s.w with _update_timeout_evt := none } with
    | Outcome.running w1 => some { s with w := w1 }
    | Outcome.halted _ => none

/-- Running a sequence of steps, every step allowed in every state. -/
def Sys.run (s : Sys) : List Step → Option Sys
  | [] => some s
  | e :: es =>
    match s.step e with
    | some s1 => s1.run es
    | none => none

/-- The order in which the radio stack and the timer deliver steps: a successful
connect only while no connection is live, a subscribe only while a connection is
live, a firing only while the timer is armed. -/
def Sys.enabled (s : Sys) : Step → Bool
  | Step.gap (ble_gap_event.connect status _) _ => decide (status ≠ 0) || !s.link.live
  | Step.gap (ble_gap_event.subscribe _ _) _ => s.link.live
  | Step.gap _ _ => true
  | Step.elapse _ => true
  | Step.fire _ => s.w.armed

/-- Running a sequence of steps that respects the delivery order; `none` when a step
is not deliverable in the state it meets, or the firmware stops. -/
def Sys.run_ordered (s : Sys) : List Step → Option Sys
  | [] => some s
  | e :: es =>
    if s.enabled e = true then
      match s.step e with
      | some s1 => s1.run_ordered es
      | none => none
    else
      none

/-- The invariant of the data model: the timer is armed exactly when a connection
exists and its subscription flag is true. -/
def Sys.armed_iff_subscribed (s : Sys) : Prop :=
  s.w.armed = true ↔ (s.link.live = true ∧ s.link.subscribed = true)

instance (s : Sys) : Decidable s.armed_iff_subscribed := by
  unfold Sys.armed_iff_subscribed; infer_instance

/-- The world after a successful connect followed by subscribe events on the
temperature value handle with the given `cur_notify` values, in order. -/
def after_subscribes (w : World) (conn_handle : Nat) (curs : List Nat) : World :=
  curs.foldl (fun v c => (gap_event_cb (ble_gap_event.subscribe v._temp_val_handle c) 0 v).2)
    (gap_event_cb (ble_gap_event.connect 0 conn_handle) 0 w).2

/-- The world inside an outcome. -/
def Outcome.world : Outcome → World
  | Outcome.running w => w
  | Outcome.halted w => w


/-- The world after the firing that is due one interval after `w.now`: the clock has
reached the deadline, the timer entry is consumed and `_temp_update` has run. -/
def fired (env : Nat → Firing) (w : World) : World :=
  (_temp_update (env (w.now + UPDATE_INTERVAL))
    { w with now := w.now + UPDATE_INTERVAL, _update_timeout_evt := none }).world

/-- The notification `_temp_update` hands to the notify primitive for a given content
of the RNG register. -/
def update_notification (conn_handle attr_handle rng_value : Nat) : Notification :=
  { conn_handle := conn_handle, attr_handle := attr_handle,
    payload := le16 ((read_rng rng_value : Int) * 10) }

/-- An environment in which every firing reads 17 from the RNG register, gets its
buffer and has its notification accepted. -/
def steady_env : Nat → Firing :=
  fun _ => { rng_value := 17, mbuf_ok := true, notify_rc := 0 }

/-- The Device-Info table as the specification words it: the five recognised
characteristic types (manufacturer name, model number, serial number, firmware
revision, hardware revision) with their fixed identity strings. It is compared with
`_devinfo_handler`, which is written from the source. -/
def devinfo_identity : List (Nat × String) :=
  [(BLE_GATT_CHAR_MANUFACTURER_NAME, "Alvarado Inc."),
   (BLE_GATT_CHAR_MODEL_NUMBER_STR, "A4"),
   (BLE_GATT_CHAR_SERIAL_NUMBER_STR, "15263748-9876-x4"),
   (BLE_GATT_CHAR_FW_REV_STR, "0.0.1"),
   (BLE_GATT_CHAR_HW_REV_STR, "1.6")]

/-- An environment in which every firing reads 17 and gets its buffer, and the notify
primitive returns the non-zero result 3. -/
def refusing_env : Nat → Firing :=
  fun _ => { rng_value := 17, mbuf_ok := true, notify_rc := 3 }

/-! ## Theorems -/

/-! ### Helper lemmas -/

theorem armed_stop_updating (w : World) : (_stop_updating w).armed = false := by
  simp [_stop_updating, puts, event_timeout_clear, World.armed]

theorem armed_start_updating (w : World) : (_start_updating w).armed = true := by
  simp [_start_updating, puts, event_timeout_set, World.armed]

theorem temp_val_handle_gap_event_cb (event : ble_gap_event) (arg : Nat) (w : World) :
    (gap_event_cb event arg w).2._temp_val_handle = w._temp_val_handle := by
  cases event <;>
    simp only [gap_event_cb, _start_updating, _stop_updating, puts, event_timeout_set,
      event_timeout_clear, nimble_autoadv_start] <;>
    split_ifs <;> rfl

theorem step_keeps_invariant (s s1 : Sys) (e : Step) (hen : s.enabled e = true)
    (hs : s.step e = some s1) (hi : s.armed_iff_subscribed) : s1.armed_iff_subscribed := by
  cases e with
  | gap event arg =>
    simp only [Sys.step, Option.some.injEq] at hs
    subst hs
    cases event with
    | connect status conn_handle =>
      by_cases hst : status = 0
      · simp only [Sys.enabled, hst] at hen
        simp at hen
        simp [Sys.armed_iff_subscribed, gap_event_cb, Link.after, hst, World.armed] at hi ⊢
        simpa [hen] using hi
      · simp [Sys.armed_iff_subscribed, gap_event_cb, Link.after, hst, nimble_autoadv_start,
          _stop_updating, puts, event_timeout_clear, World.armed]
    | disconnect =>
      simp [Sys.armed_iff_subscribed, gap_event_cb, Link.after, nimble_autoadv_start,
        _stop_updating, puts, event_timeout_clear, World.armed]
    | subscribe attr_handle cur_notify =>
      simp only [Sys.enabled] at hen
      by_cases ha : attr_handle = s.w._temp_val_handle
      · by_cases hc : cur_notify = 1
        · simp [Sys.armed_iff_subscribed, gap_event_cb, Link.after, ha, hc, hen,
            armed_start_updating]
        · simp [Sys.armed_iff_subscribed, gap_event_cb, Link.after, ha, hc, hen,
            armed_stop_updating]
      · simpa [Sys.armed_iff_subscribed, gap_event_cb, Link.after, ha] using hi
    | other type =>
      simpa [Sys.armed_iff_subscribed, gap_event_cb, Link.after] using hi
  | elapse ms =>
    simp only [Sys.step, Option.some.injEq] at hs
    subst hs
    simpa [Sys.armed_iff_subscribed, World.armed] using hi
  | fire f =>
    simp only [Sys.enabled] at hen
    simp only [Sys.step, _temp_update] at hs
    split_ifs at hs with h1 h2
    simp only [Option.some.injEq] at hs
    subst hs
    have hi2 := hi.mp hen
    simp [Sys.armed_iff_subscribed, event_timeout_set, ble_gatts_notify_custom, World.armed, hi2]

theorem run_ordered_keeps_invariant (steps : List Step) :
    ∀ s s1 : Sys, s.run_ordered steps = some s1 → s.armed_iff_subscribed →
      s1.armed_iff_subscribed := by
  induction steps with
  | nil =>
    intro s s1 h hi
    simp only [Sys.run_ordered, Option.some.injEq] at h
    subst h
    exact hi
  | cons e es ih =>
    intro s s1 h hi
    simp only [Sys.run_ordered] at h
    split_ifs at h with hen
    cases hstep : s.step e with
    | none => simp [hstep] at h
    | some s2 =>
      simp only [hstep] at h
      exact ih s2 s1 h (step_keeps_invariant s s2 e hen hstep hi)

/-! ### C1 -/

/-- C1, the claim as stated, fails: connect, subscribe, the interval passes and the
timer posts the update event, the client unsubscribes (the timer is cleared), and the
posted firing runs. The connection is live with its flag false, yet `_temp_update` has
armed the timer again. -/
theorem stale_firing_breaks_invariant :
    ∃ s0 s1 : Sys,
      (Sys.boot 3).run
        [Step.gap (ble_gap_event.connect 0 5) 0, Step.gap (ble_gap_event.subscribe 3 1) 0,
         Step.elapse 250, Step.gap (ble_gap_event.subscribe 3 0) 0] = some s0 ∧
      s0.armed_iff_subscribed ∧ s0.w.armed = false ∧
      s0.step (Step.fire { rng_value := 200, mbuf_ok := true, notify_rc := 0 }) = some s1 ∧
      s1.link.live = true ∧ s1.link.subscribed = false ∧ s1.w.armed = true ∧
      s1.w._update_timeout_evt = some 500 ∧ ¬ s1.armed_iff_subscribed := by
  refine ⟨_, _, rfl, ?_, ?_, rfl, ?_, ?_, ?_, ?_, ?_⟩ <;> decide

/-- Support for C1: `gap_event_cb` does not look for a connection either; a subscribe
event for the temperature value handle delivered in the boot state arms the timer
although no connection exists. -/
theorem subscribe_in_boot_state_arms_timer :
    ∃ s : Sys, (Sys.boot 3).run [Step.gap (ble_gap_event.subscribe 3 1) 0] = some s ∧
      s.w.armed = true ∧ s.link.live = false ∧ ¬ s.armed_iff_subscribed := by
  refine ⟨_, rfl, ?_, ?_, ?_⟩ <;> decide

/-- Support for C1: a second successful connect while the first connection is
subscribed only overwrites `_conn_handle`; the new connection starts with the flag
false and the timer stays armed. -/
theorem second_connect_keeps_timer_armed :
    ∃ s : Sys,
      (Sys.boot 3).run
        [Step.gap (ble_gap_event.connect 0 5) 0, Step.gap (ble_gap_event.subscribe 3 1) 0,
         Step.gap (ble_gap_event.connect 0 6) 0] = some s ∧
      s.w._conn_handle = 6 ∧ s.w.armed = true ∧ s.link.subscribed = false := by
  refine ⟨_, rfl, ?_, ?_, ?_⟩ <;> decide

/-- C1, amended: when the GAP events arrive as the transition table has them (a
successful connect only while no connection is live, a subscribe only while a
connection is live) and the update action fires only while the timer is armed (the
firing consumes the pending entry and the action sets it again), then in every state
reached from the boot state without a failed assertion the update timer is armed if
and only if a connection exists and its subscription flag is true. -/
theorem armed_iff_subscribed_of_ordered (h : Nat) (steps : List Step) (s : Sys)
    (hrun : (Sys.boot h).run_ordered steps = some s) :
    s.w.armed = true ↔ (s.link.live = true ∧ s.link.subscribed = true) := by
  have h0 : (Sys.boot h).armed_iff_subscribed := by
    simp [Sys.armed_iff_subscribed, Sys.boot, boot, World.armed]
  exact run_ordered_keeps_invariant steps _ s hrun h0


/-- Witness for C1 (amended): connect, subscribe, the interval passes, and the firing
runs, in delivery order; the timer is armed again by the firing, for clock value 500. -/
theorem armed_iff_subscribed_of_ordered_witness :
    ∃ s : Sys,
      (Sys.boot 3).run_ordered
        [Step.gap (ble_gap_event.connect 0 5) 0, Step.gap (ble_gap_event.subscribe 3 1) 0,
         Step.elapse 250, Step.fire { rng_value := 17, mbuf_ok := true, notify_rc := 0 }] = some s ∧
      (s.w.armed = true ↔ (s.link.live = true ∧ s.link.subscribed = true)) ∧
      s.w._update_timeout_evt = some 500 :=
  ⟨_, rfl, armed_iff_subscribed_of_ordered 3
    [Step.gap (ble_gap_event.connect 0 5) 0, Step.gap (ble_gap_event.subscribe 3 1) 0,
     Step.elapse 250, Step.fire { rng_value := 17, mbuf_ok := true, notify_rc := 0 }] _ rfl,
    by decide⟩

/-! ### C2 -/

/-- C2: in every state, handling a disconnect event leaves the update timer disarmed
(unchanged when it was disarmed already), calls the advertising start primitive
exactly once and returns 0; in particular after connect, subscribe with notifications
enabled and disconnect, the timer (armed by the subscribe) is disarmed and advertising
start has been called exactly once more than before the disconnect. -/
theorem disconnect_disarms_and_advertises (w : World) (arg conn_handle : Nat) :
    (gap_event_cb ble_gap_event.disconnect arg w).1 = 0 ∧
    (gap_event_cb ble_gap_event.disconnect arg w).2.armed = false ∧
    (gap_event_cb ble_gap_event.disconnect arg w).2.adv_starts = w.adv_starts + 1 ∧
    (w.armed = false →
      (gap_event_cb ble_gap_event.disconnect arg w).2._update_timeout_evt =
        w._update_timeout_evt) ∧
    (after_subscribes w conn_handle [1]).armed = true ∧
    (gap_event_cb ble_gap_event.disconnect arg (after_subscribes w conn_handle [1])).2.armed
      = false ∧
    (gap_event_cb ble_gap_event.disconnect arg (after_subscribes w conn_handle [1])).2.adv_starts
      = (after_subscribes w conn_handle [1]).adv_starts + 1 := by
  refine ⟨rfl, ?_, rfl, ?_, ?_, ?_, rfl⟩
  · simp [gap_event_cb, nimble_autoadv_start, _stop_updating, puts, event_timeout_clear,
      World.armed]
  · intro h
    cases hw : w._update_timeout_evt with
    | none =>
      simp [gap_event_cb, nimble_autoadv_start, _stop_updating, puts, event_timeout_clear]
    | some t => simp [World.armed, hw] at h
  · simp [after_subscribes, gap_event_cb, armed_start_updating]
  · simp [gap_event_cb, nimble_autoadv_start, _stop_updating, puts, event_timeout_clear,
      World.armed]


/-! ### C3 -/

theorem tick_disarmed (env : Nat → Firing) (w : World) (hw : w._update_timeout_evt = none) :
    tick env w = Outcome.running { w with now := w.now + 1 } := by
  simp [tick, hw]

theorem advance_disarmed (env : Nat → Firing) (ms : Nat) :
    ∀ w : World, w._update_timeout_evt = none →
      advance env ms w = Outcome.running { w with now := w.now + ms } := by
  induction ms with
  | zero => intro w _; rfl
  | succ n ih =>
    intro w hw
    simp only [advance, tick_disarmed env w hw]
    rw [ih { w with now := w.now + 1 } hw]
    simp [Nat.add_assoc, Nat.add_comm 1 n]

theorem armed_subscribe (w : World) (c : Nat) :
    (gap_event_cb (ble_gap_event.subscribe w._temp_val_handle c) 0 w).2.armed = true ↔ c = 1 := by
  by_cases hc : c = 1
  · simp [gap_event_cb, hc, armed_start_updating]
  · simp [gap_event_cb, hc, armed_stop_updating]

/-- C3: after a successful connect, for every non-empty sequence of subscribe events on
the temperature value handle, the update timer is armed afterwards if and only if the
last event had `cur_notify = 1`; and after subscribe(enable) followed by
subscribe(disable), advancing the scheduler by one interval runs without a stop and
adds no call of the notify primitive. -/
theorem armed_iff_last_subscribe_enabled (w : World) (conn_handle : Nat) (curs : List Nat)
    (hne : curs ≠ []) (env : Nat → Firing) :
    ((after_subscribes w conn_handle curs).armed = true ↔ curs.getLast hne = 1) ∧
    (after_subscribes w conn_handle [1, 0]).armed = false ∧
    (after_subscribes w conn_handle [1, 0]).notified = w.notified ∧
    ∃ w1, advance env UPDATE_INTERVAL (after_subscribes w conn_handle [1, 0])
        = Outcome.running w1 ∧
      w1.notified = (after_subscribes w conn_handle [1, 0]).notified ∧
      w1.now = (after_subscribes w conn_handle [1, 0]).now + UPDATE_INTERVAL := by
  have hoff : (after_subscribes w conn_handle [1, 0])._update_timeout_evt = none := by
    simp [after_subscribes, gap_event_cb, temp_val_handle_gap_event_cb, _start_updating,
      _stop_updating, puts, event_timeout_set, event_timeout_clear]
  refine ⟨?_, ?_, ?_, ?_⟩
  · conv_lhs => rw [← List.dropLast_append_getLast hne]
    simp only [after_subscribes, List.foldl_append, List.foldl_cons, List.foldl_nil]
    exact armed_subscribe _ _
  · simp [World.armed, hoff]
  · simp [after_subscribes, gap_event_cb, _start_updating, _stop_updating, puts,
      event_timeout_set, event_timeout_clear]
  · exact ⟨_, advance_disarmed env UPDATE_INTERVAL _ hoff, rfl, rfl⟩

/-- Witness for C3: enable, disable, enable. -/
theorem armed_iff_last_subscribe_enabled_witness :
    ([1, 0, 1] : List Nat) ≠ [] ∧
    (after_subscribes (boot 3) 5 [1, 0, 1]).armed = true ∧
    (after_subscribes (boot 3) 5 [1, 0]).armed = false :=
  ⟨by decide,
   (armed_iff_last_subscribe_enabled (boot 3) 5 [1, 0, 1] (by decide)
      (fun _ => { rng_value := 0, mbuf_ok := true, notify_rc := 0 })).1.mpr (by decide),
   (armed_iff_last_subscribe_enabled (boot 3) 5 [1, 0, 1] (by decide)
      (fun _ => { rng_value := 0, mbuf_ok := true, notify_rc := 0 })).2.1⟩

/-! ### C4 -/

theorem toInt16_of_small (x : Int) (hlo : -32768 ≤ x) (hhi : x ≤ 32767) : toInt16 x = x := by
  unfold toInt16
  omega

theorem temp_update_value (x : Nat) :
    toInt16 (toInt16 (read_rng x) * 10) = ((read_rng x * 10 : Nat) : Int) := by
  have hb : read_rng x < 256 := by
    unfold read_rng toUInt8
    omega
  have h1 : toInt16 (read_rng x) = (read_rng x : Int) := toInt16_of_small _ (by omega) (by omega)
  rw [h1, toInt16_of_small _ (by omega) (by omega)]
  push_cast
  rfl

/-- C4, the claim as stated, fails: when the measurement source returns 1, the payload
handed to the notify primitive is the encoding of 10, not of 1 × 100. -/
theorem update_payload_is_not_reading_times_100 :
    ∃ w1, _temp_update { rng_value := 1, mbuf_ok := true, notify_rc := 0 } (boot 3)
        = Outcome.running w1 ∧
      w1.notified = [{ conn_handle := 0, attr_handle := 3, payload := [10, 0] }] ∧
      le16 ((read_rng 1 : Int) * 100) = [100, 0] ∧
      le16 ((read_rng 1 : Int) * 10) = [10, 0] := by
  refine ⟨_, rfl, ?_, ?_, ?_⟩ <;> decide

/-- C4, amended: for every firing of `_temp_update` in which the buffer is allocated,
exactly one call of the notify primitive is made, with the stored connection handle
and the temperature value handle, and its 2-byte payload is the little-endian 16-bit
two's-complement encoding of reading × 10, where reading is the byte obtained from
`read_rng` during that firing (the source comments the value as 0 to 25.5 degC, that
is reading / 10 degrees in hundredths). -/
theorem update_payload_is_reading_times_10 (f : Firing) (w : World) (hbuf : f.mbuf_ok = true) :
    (_temp_update f w).world.notified =
        w.notified ++ [{ conn_handle := w._conn_handle, attr_handle := w._temp_val_handle,
                         payload := le16 ((read_rng f.rng_value : Int) * 10) }] ∧
    le16 ((read_rng f.rng_value : Int) * 10)
      = [read_rng f.rng_value * 10 % 256, read_rng f.rng_value * 10 / 256] := by
  have hb : read_rng f.rng_value < 256 := by
    unfold read_rng toUInt8
    omega
  have hv := temp_update_value f.rng_value
  constructor
  · simp only [_temp_update, hbuf, hv]
    by_cases hrc : f.notify_rc = 0
    · simp [hrc, Outcome.world, event_timeout_set, ble_gatts_notify_custom]
    · simp [hrc, Outcome.world, ble_gatts_notify_custom]
  · have h2 : ((read_rng f.rng_value : Int) * 10) % 65536
        = ((read_rng f.rng_value * 10 : Nat) : Int) := by
      push_cast
      omega
    simp only [le16, h2, Int.toNat_ofNat]

/-- Witness for C4 (amended): the register holds 0x1FF, `read_rng` returns 255, and the
payload is 2550 = 0x09F6, low byte first. -/
theorem update_payload_is_reading_times_10_witness :
    (_temp_update { rng_value := 0x1FF, mbuf_ok := true, notify_rc := 0 } (boot 3)).world.notified
      = [{ conn_handle := 0, attr_handle := 3, payload := [0xF6, 0x09] }] :=
  (update_payload_is_reading_times_10 { rng_value := 0x1FF, mbuf_ok := true, notify_rc := 0 }
    (boot 3) rfl).1

/-! ### C5 -/

theorem decode_le16_le16 (x : Int) (hlo : -32768 ≤ x) (hhi : x ≤ 32767) :
    decode_le16 (le16 x) = some x := by
  have hnn : 0 ≤ x % 65536 := Int.emod_nonneg _ (by decide)
  have hcast : (((x % 65536).toNat : Nat) : Int) = x % 65536 := Int.toNat_of_nonneg hnn
  simp only [le16, decode_le16, Option.some.injEq]
  have hsplit : (((x % 65536).toNat % 256 : Nat) : Int) + 256 * (((x % 65536).toNat / 256 : Nat) : Int)
      = x % 65536 := by
    rw [← hcast]
    push_cast
    omega
  rw [hsplit]
  unfold toInt16
  omega

/-- C6: for every raw reading `r` that `read_temperature` returns with
-327 ≤ r ≤ 327 (every such `r` is returned, for the register value 4 r), and a response
buffer with room for two bytes, `_temp_handler` returns 0 and appends the little-endian
16-bit two's-complement bytes of r × 100; decoding those two bytes as a signed 16-bit
integer gives r × 100, and dividing by 100 recovers r exactly. -/
theorem temp_handler_encodes_reading (conn_handle attr_handle arg : Nat)
    (ctxt : ble_gatt_access_ctxt) (temp_reg : Int) (w : World) (r : Int)
    (hr : read_temperature temp_reg = r) (hlo : -327 ≤ r) (hhi : r ≤ 327)
    (hroom : 2 ≤ ctxt.om.room) :
    (_temp_handler conn_handle attr_handle ctxt arg temp_reg w).1 = 0 ∧
    (_temp_handler conn_handle attr_handle ctxt arg temp_reg w).2.1.data
      = ctxt.om.data ++ le16 (r * 100) ∧
    (le16 (r * 100)).length = 2 ∧
    decode_le16 (le16 (r * 100)) = some (r * 100) ∧
    Int.tdiv (r * 100) 100 = r ∧
    read_temperature (4 * r) = r := by
  have hfit : toInt16 (r * 100) = r * 100 := toInt16_of_small _ (by omega) (by omega)
  have hlen : (le16 (r * 100)).length = 2 := rfl
  have happ : os_mbuf_append ctxt.om (le16 (r * 100))
      = (0, { data := ctxt.om.data ++ le16 (r * 100), room := ctxt.om.room - 2 }) := by
    simp [os_mbuf_append, hlen, hroom]
  refine ⟨?_, ?_, hlen, decode_le16_le16 _ (by omega) (by omega), ?_, ?_⟩
  · simp only [_temp_handler, hr, hfit, happ]
    rfl
  · simp only [_temp_handler, hr, hfit, happ]
  · exact Int.mul_tdiv_cancel r (by decide)
  · unfold read_temperature
    rw [toInt16_of_small (4 * r) (by omega) (by omega)]
    rw [Int.mul_tdiv_cancel_left r (by decide)]
    exact toInt16_of_small r (by omega) (by omega)

/-- Witness for C6: the register holds -1308 quarter degrees, the reading is -327 and
the response holds -32700 = 0x8044, low byte first. -/
theorem temp_handler_encodes_reading_witness :
    read_temperature (-1308) = -327 ∧
    (_temp_handler 0 0 { chr_uuid := 0x2A6E, om := { data := [], room := 20 } } 0 (-1308)
        (boot 3)).2.1.data = [0x44, 0x80] ∧
    decode_le16 [0x44, 0x80] = some (-32700) :=
  ⟨by decide,
   (temp_handler_encodes_reading 0 0 0 { chr_uuid := 0x2A6E, om := { data := [], room := 20 } }
      (-1308) (boot 3) (-327) (by decide) (by decide) (by decide) (by decide)).2.1.trans
     (by decide),
   by decide⟩

/-! ### C7 -/

theorem advance_add (env : Nat → Firing) (a b : Nat) :
    ∀ w : World, advance env (a + b) w =
      match advance env a w with
      | Outcome.running w1 => advance env b w1
      | Outcome.halted w1 => Outcome.halted w1 := by
  induction a with
  | zero => intro w; simp [advance]
  | succ n ih =>
    intro w
    rw [Nat.succ_add]
    simp only [advance]
    cases tick env w with
    | running w1 => exact ih w1
    | halted w1 => rfl

theorem advance_wait (env : Nat → Firing) (t k : Nat) :
    ∀ w : World, w._update_timeout_evt = some t → w.now + k < t →
      advance env k w = Outcome.running { w with now := w.now + k } := by
  induction k with
  | zero => intro w _ _; rfl
  | succ n ih =>
    intro w hw hlt
    have htick : tick env w = Outcome.running { w with now := w.now + 1 } := by
      have : ¬ t ≤ w.now + 1 := by omega
      simp [tick, hw, this]
    simp only [advance, htick]
    rw [ih { w with now := w.now + 1 } hw (by simp only; omega)]
    simp [Nat.add_assoc, Nat.add_comm 1 n]

theorem advance_interval (env : Nat → Firing) (w : World)
    (hw : w._update_timeout_evt = some (w.now + UPDATE_INTERVAL))
    (hbuf : (env (w.now + UPDATE_INTERVAL)).mbuf_ok = true)
    (hrc : (env (w.now + UPDATE_INTERVAL)).notify_rc = 0) :
    advance env UPDATE_INTERVAL w = Outcome.running (fired env w) ∧
    (fired env w)._update_timeout_evt = some ((fired env w).now + UPDATE_INTERVAL) ∧
    (fired env w).now = w.now + UPDATE_INTERVAL ∧
    (fired env w)._conn_handle = w._conn_handle ∧
    (fired env w)._temp_val_handle = w._temp_val_handle ∧
    (fired env w).notified = w.notified ++
      [update_notification w._conn_handle w._temp_val_handle
        (env (w.now + UPDATE_INTERVAL)).rng_value] := by
  have hv := temp_update_value (env (w.now + UPDATE_INTERVAL)).rng_value
  have hsplit : UPDATE_INTERVAL = 249 + 1 := rfl
  have hwait := advance_wait env (w.now + UPDATE_INTERVAL) 249 w hw
    (by simp only [UPDATE_INTERVAL]; omega)
  refine ⟨?_, ?_, ?_, ?_, ?_, ?_⟩
  · conv_lhs => rw [hsplit, advance_add, hwait]
    simp only [advance, tick, hw]
    have hdue : w.now + UPDATE_INTERVAL ≤ w.now + 249 + 1 := by
      simp only [UPDATE_INTERVAL]; omega
    simp only [hdue, if_true]
    have hnow : w.now + 249 + 1 = w.now + UPDATE_INTERVAL := by
      simp only [UPDATE_INTERVAL]
    simp only [hnow, fired, _temp_update, hbuf, hrc]
    simp [Outcome.world]
  · simp [fired, _temp_update, hbuf, hrc, Outcome.world, event_timeout_set,
      ble_gatts_notify_custom]
  · simp [fired, _temp_update, hbuf, hrc, Outcome.world, event_timeout_set,
      ble_gatts_notify_custom]
  · simp [fired, _temp_update, hbuf, hrc, Outcome.world, event_timeout_set,
      ble_gatts_notify_custom]
  · simp [fired, _temp_update, hbuf, hrc, Outcome.world, event_timeout_set,
      ble_gatts_notify_custom]
  · simp [fired, _temp_update, hbuf, hrc, Outcome.world, event_timeout_set,
      ble_gatts_notify_custom, update_notification, hv]

theorem advance_intervals (env : Nat → Firing)
    (hok : ∀ t, (env t).mbuf_ok = true ∧ (env t).notify_rc = 0) (w0 : World)
    (h0 : w0._update_timeout_evt = some (w0.now + UPDATE_INTERVAL)) (n : Nat) :
    ∃ wn, advance env (n * UPDATE_INTERVAL) w0 = Outcome.running wn ∧
      wn._update_timeout_evt = some (wn.now + UPDATE_INTERVAL) ∧
      wn.now = w0.now + n * UPDATE_INTERVAL ∧
      wn._conn_handle = w0._conn_handle ∧
      wn._temp_val_handle = w0._temp_val_handle ∧
      wn.notified = w0.notified ++ (List.range n).map (fun k =>
        update_notification w0._conn_handle w0._temp_val_handle
          (env (w0.now + (k + 1) * UPDATE_INTERVAL)).rng_value) := by
  induction n with
  | zero => exact ⟨w0, by simp [advance], h0, by simp, rfl, rfl, by simp⟩
  | succ n ih =>
    obtain ⟨wn, hrun, htimer, hnow, hconn, hattr, hnot⟩ := ih
    obtain ⟨h1, h2, h3, h4, h5, h6⟩ :=
      advance_interval env wn htimer (hok _).1 (hok _).2
    refine ⟨fired env wn, ?_, h2, ?_, ?_, ?_, ?_⟩
    · rw [Nat.succ_mul, advance_add, hrun]
      exact h1
    · rw [h3, hnow, Nat.succ_mul, Nat.add_assoc]
    · rw [h4, hconn]
    · rw [h5, hattr]
    · rw [h6, hnot, hconn, hattr, hnow, List.range_succ, List.map_append, List.append_assoc]
      simp [Nat.succ_mul, Nat.add_assoc]

/-- C7: after a successful connect and a subscribe with notifications enabled on the
temperature value handle, the first firing is pending at now + 250 ms; when every
buffer allocation and every notify call succeeds, advancing the scheduler by n
intervals runs without a stop and adds exactly n calls of the notify primitive (one
per interval, each with the value read at its tick), and the timer is armed again
for 250 ms after the last firing; every single firing that succeeds adds one call and
arms the timer for its own firing time + 250 ms. In particular 3 intervals give
exactly 3 sends. -/
theorem n_intervals_give_n_sends (w : World) (conn_handle : Nat) (env : Nat → Firing) (n : Nat)
    (hok : ∀ t, (env t).mbuf_ok = true ∧ (env t).notify_rc = 0) :
    UPDATE_INTERVAL = 250 ∧
    (after_subscribes w conn_handle [1])._update_timeout_evt = some (w.now + UPDATE_INTERVAL) ∧
    (after_subscribes w conn_handle [1]).notified = w.notified ∧
    (∃ wn, advance env (n * UPDATE_INTERVAL) (after_subscribes w conn_handle [1])
        = Outcome.running wn ∧
      wn.notified = w.notified ++ (List.range n).map (fun k =>
        update_notification conn_handle w._temp_val_handle
          (env (w.now + (k + 1) * UPDATE_INTERVAL)).rng_value) ∧
      wn.notified.length = w.notified.length + n ∧
      wn.now = w.now + n * UPDATE_INTERVAL ∧
      wn._update_timeout_evt = some (wn.now + UPDATE_INTERVAL)) ∧
    (∃ w3, advance env (3 * UPDATE_INTERVAL) (after_subscribes w conn_handle [1])
        = Outcome.running w3 ∧ w3.notified.length = w.notified.length + 3) ∧
    (∀ (t : Nat) (v : World),
      _temp_update (env t) v = Outcome.running (_temp_update (env t) v).world ∧
      (_temp_update (env t) v).world.notified.length = v.notified.length + 1 ∧
      (_temp_update (env t) v).world._update_timeout_evt = some (v.now + UPDATE_INTERVAL)) := by
  have hstart : (after_subscribes w conn_handle [1])._update_timeout_evt
      = some ((after_subscribes w conn_handle [1]).now + UPDATE_INTERVAL) := by
    simp [after_subscribes, gap_event_cb, _start_updating, puts, event_timeout_set]
  have hnow : (after_subscribes w conn_handle [1]).now = w.now := by
    simp [after_subscribes, gap_event_cb, _start_updating, puts, event_timeout_set]
  have hconn : (after_subscribes w conn_handle [1])._conn_handle = conn_handle := by
    simp [after_subscribes, gap_event_cb, _start_updating, puts, event_timeout_set]
  have hattr : (after_subscribes w conn_handle [1])._temp_val_handle = w._temp_val_handle := by
    simp [after_subscribes, gap_event_cb, _start_updating, puts, event_timeout_set]
  have hnot : (after_subscribes w conn_handle [1]).notified = w.notified := by
    simp [after_subscribes, gap_event_cb, _start_updating, puts, event_timeout_set]
  have hgen : ∀ m, ∃ wn, advance env (m * UPDATE_INTERVAL) (after_subscribes w conn_handle [1])
        = Outcome.running wn ∧
      wn.notified = w.notified ++ (List.range m).map (fun k =>
        update_notification conn_handle w._temp_val_handle
          (env (w.now + (k + 1) * UPDATE_INTERVAL)).rng_value) ∧
      wn.notified.length = w.notified.length + m ∧
      wn.now = w.now + m * UPDATE_INTERVAL ∧
      wn._update_timeout_evt = some (wn.now + UPDATE_INTERVAL) := by
    intro m
    obtain ⟨wn, hrun, htimer, hn, _, _, hlist⟩ :=
      advance_intervals env hok (after_subscribes w conn_handle [1]) hstart m
    rw [hnot, hconn, hattr, hnow] at hlist
    rw [hnow] at hn
    exact ⟨wn, hrun, hlist, by simp [hlist], hn, htimer⟩
  refine ⟨rfl, ?_, hnot, hgen n, ?_, ?_⟩
  · rw [hstart, hnow]
  · obtain ⟨w3, hrun, _, hlen, _, _⟩ := hgen 3
    exact ⟨w3, hrun, hlen⟩
  · intro t v
    have hb := (hok t).1
    have hr := (hok t).2
    refine ⟨?_, ?_, ?_⟩
    · simp [_temp_update, hb, hr, Outcome.world]
    · simp [_temp_update, hb, hr, Outcome.world, event_timeout_set, ble_gatts_notify_custom]
    · simp [_temp_update, hb, hr, Outcome.world, event_timeout_set, ble_gatts_notify_custom]

/-- Witness for C7: every firing reads 17 and succeeds; three intervals after the
subscribe, three notifications have been handed over. -/
theorem n_intervals_give_n_sends_witness :
    (∀ t : Nat, (steady_env t).mbuf_ok = true ∧ (steady_env t).notify_rc = 0) ∧
    ∃ w3, advance steady_env (3 * UPDATE_INTERVAL) (after_subscribes (boot 3) 5 [1])
        = Outcome.running w3 ∧
      w3.notified.length = (boot 3).notified.length + 3 :=
  ⟨fun _ => ⟨rfl, rfl⟩,
   (n_intervals_give_n_sends (boot 3) 5 steady_env 3 (fun _ => ⟨rfl, rfl⟩)).2.2.2.2.1⟩

/-! ### C8 -/

/-- C8: in every state, a subscribe event whose attribute handle differs from the
temperature value handle, whatever its `cur_notify`, changes nothing: `gap_event_cb`
returns 0 and the world is the same (timer, stored connection handle, advertising
count, output and notifications; neither `_start_updating` nor `_stop_updating`
runs). -/
theorem subscribe_other_handle_ignored (w : World) (attr_handle cur_notify arg : Nat)
    (hother : attr_handle ≠ w._temp_val_handle) :
    gap_event_cb (ble_gap_event.subscribe attr_handle cur_notify) arg w = (0, w) := by
  simp [gap_event_cb, hother]

/-- Witness for C8: a subscribe on handle 4 while the temperature value handle is 3 and
the timer is armed. -/
theorem subscribe_other_handle_ignored_witness :
    (4 : Nat) ≠ (after_subscribes (boot 3) 5 [1])._temp_val_handle ∧
    (after_subscribes (boot 3) 5 [1]).armed = true ∧
    gap_event_cb (ble_gap_event.subscribe 4 0) 0 (after_subscribes (boot 3) 5 [1])
      = (0, after_subscribes (boot 3) 5 [1]) :=
  ⟨by decide, by decide,
   subscribe_other_handle_ignored (after_subscribes (boot 3) 5 [1]) 4 0 0 (by decide)⟩

/-! ### C9 -/

/-- C9: for every characteristic type passed to `_devinfo_handler`: when it is one of
the five recognised Device-Info types and the identity string fits the response
buffer, the handler returns 0 and appends exactly the bytes of that string (as many
bytes as the string has characters, no terminator, no length byte in front); when the string
does not fit, it returns the insufficient-resources error; for every other type it
returns the unlikely error and leaves the response and the world as they were. -/
theorem devinfo_handler_response (conn_handle attr_handle arg : Nat)
    (ctxt : ble_gatt_access_ctxt) (w : World) :
    (∀ str, (ctxt.chr_uuid, str) ∈ devinfo_identity →
      ((str_bytes str).length ≤ ctxt.om.room →
        (_devinfo_handler conn_handle attr_handle ctxt arg w).1 = 0 ∧
        (_devinfo_handler conn_handle attr_handle ctxt arg w).2.1.data
          = ctxt.om.data ++ str_bytes str) ∧
      (ctxt.om.room < (str_bytes str).length →
        (_devinfo_handler conn_handle attr_handle ctxt arg w).1
          = BLE_ATT_ERR_INSUFFICIENT_RES)) ∧
    ((∀ str, (ctxt.chr_uuid, str) ∉ devinfo_identity) →
      (_devinfo_handler conn_handle attr_handle ctxt arg w).1 = BLE_ATT_ERR_UNLIKELY ∧
      (_devinfo_handler conn_handle attr_handle ctxt arg w).2.1 = ctxt.om ∧
      (_devinfo_handler conn_handle attr_handle ctxt arg w).2.2 = w) ∧
    (∀ p ∈ devinfo_identity, (str_bytes p.2).length = p.2.length ∧ 0 ∉ str_bytes p.2) ∧
    devinfo_identity.map (fun p => str_bytes p.2) =
      [[0x41, 0x6c, 0x76, 0x61, 0x72, 0x61, 0x64, 0x6f, 0x20, 0x49, 0x6e, 0x63, 0x2e],
       [0x41, 0x34],
       [0x31, 0x35, 0x32, 0x36, 0x33, 0x37, 0x34, 0x38, 0x2d, 0x39, 0x38, 0x37, 0x36, 0x2d,
        0x78, 0x34],
       [0x30, 0x2e, 0x30, 0x2e, 0x31],
       [0x31, 0x2e, 0x36]] := by
  obtain ⟨u, om⟩ := ctxt
  refine ⟨?_, ?_, by decide, by decide⟩
  · intro str hmem
    simp only [devinfo_identity, List.mem_cons, Prod.mk.injEq, List.mem_singleton,
      List.not_mem_nil, or_false] at hmem
    rcases hmem with ⟨hu, hs⟩ | ⟨hu, hs⟩ | ⟨hu, hs⟩ | ⟨hu, hs⟩ | ⟨hu, hs⟩ <;>
      subst hu <;> subst hs <;>
      refine ⟨fun hfit => ?_, fun hfull => ?_⟩
    all_goals
      simp only [_devinfo_handler, BLE_GATT_CHAR_MANUFACTURER_NAME,
        BLE_GATT_CHAR_MODEL_NUMBER_STR, BLE_GATT_CHAR_SERIAL_NUMBER_STR,
        BLE_GATT_CHAR_FW_REV_STR, BLE_GATT_CHAR_HW_REV_STR, _manufacturer_name, _model_number,
        _serial_number, _fw_ver, _hw_ver, os_mbuf_append]
    all_goals first
      | (simp only [Nat.reduceEqDiff, if_true, if_false, hfit]; simp)
      | (simp only [Nat.reduceEqDiff, if_true, if_false, Nat.not_le.mpr hfull]
         simp [OS_ENOMEM])
  · intro hnot
    have h1 : u ≠ BLE_GATT_CHAR_MANUFACTURER_NAME := fun h =>
      hnot "Alvarado Inc." (by simp [devinfo_identity, h])
    have h2 : u ≠ BLE_GATT_CHAR_MODEL_NUMBER_STR := fun h =>
      hnot "A4" (by simp [devinfo_identity, h])
    have h3 : u ≠ BLE_GATT_CHAR_SERIAL_NUMBER_STR := fun h =>
      hnot "15263748-9876-x4" (by simp [devinfo_identity, h])
    have h4 : u ≠ BLE_GATT_CHAR_FW_REV_STR := fun h =>
      hnot "0.0.1" (by simp [devinfo_identity, h])
    have h5 : u ≠ BLE_GATT_CHAR_HW_REV_STR := fun h =>
      hnot "1.6" (by simp [devinfo_identity, h])
    simp [_devinfo_handler, h1, h2, h3, h4, h5]

/-- Witness for C9: the serial number read into an empty buffer with room, the model
number read into a buffer with room for one byte, and a type that is not recognised. -/
theorem devinfo_handler_response_witness :
    ((_devinfo_handler 0 0
        { chr_uuid := BLE_GATT_CHAR_SERIAL_NUMBER_STR, om := { data := [], room := 100 } } 0
        (boot 3)).1 = 0 ∧
      (_devinfo_handler 0 0
        { chr_uuid := BLE_GATT_CHAR_SERIAL_NUMBER_STR, om := { data := [], room := 100 } } 0
        (boot 3)).2.1.data = [] ++ str_bytes "15263748-9876-x4") ∧
    (_devinfo_handler 0 0
        { chr_uuid := BLE_GATT_CHAR_MODEL_NUMBER_STR, om := { data := [], room := 1 } } 0
        (boot 3)).1 = BLE_ATT_ERR_INSUFFICIENT_RES ∧
    (_devinfo_handler 0 0 { chr_uuid := 0x2A28, om := { data := [7], room := 100 } } 0
        (boot 3)).1 = BLE_ATT_ERR_UNLIKELY :=
  ⟨((devinfo_handler_response 0 0 0
        { chr_uuid := BLE_GATT_CHAR_SERIAL_NUMBER_STR, om := { data := [], room := 100 } }
        (boot 3)).1 "15263748-9876-x4" (by decide)).1 (by decide),
   ((devinfo_handler_response 0 0 0
        { chr_uuid := BLE_GATT_CHAR_MODEL_NUMBER_STR, om := { data := [], room := 1 } }
        (boot 3)).1 "A4" (by decide)).2 (by decide),
   ((devinfo_handler_response 0 0 0 { chr_uuid := 0x2A28, om := { data := [7], room := 100 } }
        (boot 3)).2.1 (by
          intro str
          simp [devinfo_identity, BLE_GATT_CHAR_MANUFACTURER_NAME,
            BLE_GATT_CHAR_MODEL_NUMBER_STR, BLE_GATT_CHAR_SERIAL_NUMBER_STR,
            BLE_GATT_CHAR_FW_REV_STR, BLE_GATT_CHAR_HW_REV_STR])).1⟩

/-! ### C10 -/

/-- C10: for every connection handle, attribute handle and callback argument, and in
every world (whatever the stored connection handle and whether the timer is armed), a
Battery read through `_bas_handler` into a buffer with room for one byte returns 0 and
appends exactly the byte 42; a second read with other handles, argument and world gives
the same return value and the same response; and the read leaves the world as it was
except for the line it prints (stored connection handle and timer are unchanged). -/
theorem bas_handler_reads_42 (conn_handle attr_handle arg conn_handle2 attr_handle2 arg2 : Nat)
    (ctxt : ble_gatt_access_ctxt) (w w2 : World) (hroom : 1 ≤ ctxt.om.room) :
    (_bas_handler conn_handle attr_handle ctxt arg w).1 = 0 ∧
    (_bas_handler conn_handle attr_handle ctxt arg w).2.1.data = ctxt.om.data ++ [42] ∧
    (_bas_handler conn_handle2 attr_handle2 ctxt arg2 w2).1
      = (_bas_handler conn_handle attr_handle ctxt arg w).1 ∧
    (_bas_handler conn_handle2 attr_handle2 ctxt arg2 w2).2.1
      = (_bas_handler conn_handle attr_handle ctxt arg w).2.1 ∧
    (_bas_handler conn_handle attr_handle ctxt arg w).2.2
      = { w with stdout := w.stdout ++ ["[READ] battery level service: battery level value\n"] } ∧
    (_bas_handler conn_handle attr_handle ctxt arg w).2.2._conn_handle = w._conn_handle ∧
    (_bas_handler conn_handle attr_handle ctxt arg w).2.2._update_timeout_evt
      = w._update_timeout_evt := by
  have happ : os_mbuf_append ctxt.om [toUInt8 BAT_LEVEL]
      = (0, { data := ctxt.om.data ++ [42], room := ctxt.om.room - 1 }) := by
    simp [os_mbuf_append, hroom, toUInt8, BAT_LEVEL]
  refine ⟨?_, ?_, ?_, ?_, ?_, ?_, ?_⟩ <;> simp [_bas_handler, happ, puts]

/-- Witness for C10: a read in the boot state and a read while subscribed. -/
theorem bas_handler_reads_42_witness :
    (_bas_handler 5 9 { chr_uuid := 0x2A19, om := { data := [], room := 20 } } 0 (boot 3)).1 = 0 ∧
    (_bas_handler 5 9 { chr_uuid := 0x2A19, om := { data := [], room := 20 } } 0
      (boot 3)).2.1.data = [] ++ [42] ∧
    (_bas_handler 6 9 { chr_uuid := 0x2A19, om := { data := [], room := 20 } } 1
      (after_subscribes (boot 3) 6 [1])).2.1
      = (_bas_handler 5 9 { chr_uuid := 0x2A19, om := { data := [], room := 20 } } 0
          (boot 3)).2.1 :=
  ⟨(bas_handler_reads_42 5 9 0 6 9 1 { chr_uuid := 0x2A19, om := { data := [], room := 20 } }
      (boot 3) (after_subscribes (boot 3) 6 [1]) (by decide)).1,
   (bas_handler_reads_42 5 9 0 6 9 1 { chr_uuid := 0x2A19, om := { data := [], room := 20 } }
      (boot 3) (after_subscribes (boot 3) 6 [1]) (by decide)).2.1,
   (bas_handler_reads_42 5 9 0 6 9 1 { chr_uuid := 0x2A19, om := { data := [], room := 20 } }
      (boot 3) (after_subscribes (boot 3) 6 [1]) (by decide)).2.2.2.1⟩

/-! ### C11 -/

/-- C11: a run of `_temp_update` halts if and only if the buffer allocation fails or
the notify primitive returns a non-zero result. When it halts, the timeout is not set
(the timer is as the run found it, and disarmed when the run was started by the timer,
which consumes its entry), at most the one failed notify call was made, and the event
loop stays halted however long it is advanced, so no later firing occurs. When it does
not halt, exactly one notification has been handed over and the timer is armed for one
interval later. -/
theorem temp_update_halts_iff_failure (f : Firing) (w : World) (env : Nat → Firing)
    (a b : Nat) :
    ((∃ w1, _temp_update f w = Outcome.halted w1) ↔ (f.mbuf_ok = false ∨ f.notify_rc ≠ 0)) ∧
    ((f.mbuf_ok = false ∨ f.notify_rc ≠ 0) →
      _temp_update f w = Outcome.halted (_temp_update f w).world ∧
      (_temp_update f w).world._update_timeout_evt = w._update_timeout_evt ∧
      (_temp_update f w).world.notified.length ≤ w.notified.length + 1) ∧
    (¬ (f.mbuf_ok = false ∨ f.notify_rc ≠ 0) →
      _temp_update f w = Outcome.running (_temp_update f w).world ∧
      (_temp_update f w).world.notified = w.notified ++
        [update_notification w._conn_handle w._temp_val_handle f.rng_value] ∧
      (_temp_update f w).world.notified.length = w.notified.length + 1 ∧
      (_temp_update f w).world._update_timeout_evt = some (w.now + UPDATE_INTERVAL)) ∧
    (∀ w1, tick env w = Outcome.halted w1 →
      w1._update_timeout_evt = none ∧ w1.armed = false) ∧
    (∀ w1, advance env a w = Outcome.halted w1 →
      advance env (a + b) w = Outcome.halted w1) := by
  have hv := temp_update_value f.rng_value
  have hhalt : (f.mbuf_ok = false ∨ f.notify_rc ≠ 0) →
      _temp_update f w = Outcome.halted (_temp_update f w).world ∧
      (_temp_update f w).world._update_timeout_evt = w._update_timeout_evt ∧
      (_temp_update f w).world.notified.length ≤ w.notified.length + 1 := by
    rintro (hbuf | hrc)
    · simp [_temp_update, hbuf, Outcome.world]
    · cases hb : f.mbuf_ok with
      | false => simp [_temp_update, hb, Outcome.world]
      | true => simp [_temp_update, hb, hrc, Outcome.world, ble_gatts_notify_custom]
  refine ⟨?_, hhalt, ?_, ?_, ?_⟩
  · constructor
    · rintro ⟨w1, h⟩
      by_contra hno
      simp only [not_or, Bool.not_eq_false, ne_eq, not_not] at hno
      simp [_temp_update, hno.1, hno.2] at h
    · intro hfail
      exact ⟨_, (hhalt hfail).1⟩
  · intro hno
    simp only [not_or, Bool.not_eq_false, ne_eq, not_not] at hno
    refine ⟨?_, ?_, ?_, ?_⟩
    · simp [_temp_update, hno.1, hno.2, Outcome.world]
    · simp [_temp_update, hno.1, hno.2, Outcome.world, event_timeout_set,
        ble_gatts_notify_custom, update_notification, hv]
    · simp [_temp_update, hno.1, hno.2, Outcome.world, event_timeout_set,
        ble_gatts_notify_custom]
    · simp [_temp_update, hno.1, hno.2, Outcome.world, event_timeout_set,
        ble_gatts_notify_custom]
  · intro w1 h
    have hnone : w1._update_timeout_evt = none := by
      cases ht : w._update_timeout_evt with
      | none => simp [tick, ht] at h
      | some t =>
        simp only [tick, ht] at h
        split_ifs at h with hdue
        simp only [_temp_update] at h
        split_ifs at h with h1 h2
        · simp only [Outcome.halted.injEq] at h
          rw [← h]
        · simp only [Outcome.halted.injEq] at h
          rw [← h]
          rfl
    exact ⟨hnone, by simp [World.armed, hnone]⟩
  · intro w1 h
    rw [advance_add, h]

/-- Witness for C11: one interval after the subscribe the notify primitive returns 3;
the run halts with the timer disarmed, and two more intervals change nothing. -/
theorem temp_update_halts_iff_failure_witness :
    (∃ w1, _temp_update (refusing_env 250) (after_subscribes (boot 3) 5 [1])
      = Outcome.halted w1) ∧
    advance refusing_env UPDATE_INTERVAL (after_subscribes (boot 3) 5 [1])
      = Outcome.halted (advance refusing_env UPDATE_INTERVAL
          (after_subscribes (boot 3) 5 [1])).world ∧
    advance refusing_env (UPDATE_INTERVAL + 500) (after_subscribes (boot 3) 5 [1])
      = Outcome.halted (advance refusing_env UPDATE_INTERVAL
          (after_subscribes (boot 3) 5 [1])).world :=
  have hhalt : advance refusing_env UPDATE_INTERVAL (after_subscribes (boot 3) 5 [1])
      = Outcome.halted (advance refusing_env UPDATE_INTERVAL
          (after_subscribes (boot 3) 5 [1])).world := by decide
  ⟨(temp_update_halts_iff_failure (refusing_env 250) (after_subscribes (boot 3) 5 [1])
      refusing_env 0 0).1.mpr (Or.inr (by decide)),
   hhalt,
   (temp_update_halts_iff_failure (refusing_env 250) (after_subscribes (boot 3) 5 [1])
      refusing_env UPDATE_INTERVAL 500).2.2.2.2 _ hhalt⟩

/-! ### C12 -/

/-- C12: in every state, a connect event with non-zero status produces no live
connection: `gap_event_cb` returns 0, leaves `_conn_handle` as it was (the event's
handle is not stored), leaves the timer disarmed and calls advertising start exactly
once, and the Connection of the data model is none afterwards. A connect event with
status 0 returns 0, stores the event's handle, calls no advertising start and leaves
the timer as it was; the Connection is live afterwards. -/
theorem failed_connect_gives_no_connection (w : World) (l : Link) (status : Int)
    (conn_handle arg : Nat) (hfail : status ≠ 0) :
    (gap_event_cb (ble_gap_event.connect status conn_handle) arg w).1 = 0 ∧
    (gap_event_cb (ble_gap_event.connect status conn_handle) arg w).2._conn_handle
      = w._conn_handle ∧
    (gap_event_cb (ble_gap_event.connect status conn_handle) arg w).2.armed = false ∧
    (gap_event_cb (ble_gap_event.connect status conn_handle) arg w).2.adv_starts
      = w.adv_starts + 1 ∧
    (l.after w._temp_val_handle (ble_gap_event.connect status conn_handle)).live = false ∧
    (gap_event_cb (ble_gap_event.connect 0 conn_handle) arg w).1 = 0 ∧
    (gap_event_cb (ble_gap_event.connect 0 conn_handle) arg w).2._conn_handle = conn_handle ∧
    (gap_event_cb (ble_gap_event.connect 0 conn_handle) arg w).2.adv_starts = w.adv_starts ∧
    (gap_event_cb (ble_gap_event.connect 0 conn_handle) arg w).2._update_timeout_evt
      = w._update_timeout_evt ∧
    (gap_event_cb (ble_gap_event.connect 0 conn_handle) arg w).2
      = { w with _conn_handle := conn_handle } ∧
    (l.after w._temp_val_handle (ble_gap_event.connect 0 conn_handle)).live = true := by
  refine ⟨?_, ?_, ?_, ?_, ?_, rfl, rfl, rfl, rfl, rfl, rfl⟩
  · simp [gap_event_cb, hfail]
  · simp [gap_event_cb, hfail, nimble_autoadv_start, _stop_updating, puts, event_timeout_clear]
  · simp [gap_event_cb, hfail, nimble_autoadv_start, _stop_updating, puts, event_timeout_clear,
      World.armed]
  · simp [gap_event_cb, hfail, nimble_autoadv_start, _stop_updating, puts, event_timeout_clear]
  · simp [Link.after, hfail]

/-- Witness for C12: a connect with status 2 and handle 9 while a subscribed connection
with handle 5 has the timer armed. -/
theorem failed_connect_gives_no_connection_witness :
    (2 : Int) ≠ 0 ∧
    (after_subscribes (boot 3) 5 [1]).armed = true ∧
    (gap_event_cb (ble_gap_event.connect 2 9) 0 (after_subscribes (boot 3) 5 [1])).2._conn_handle
      = (after_subscribes (boot 3) 5 [1])._conn_handle ∧
    (gap_event_cb (ble_gap_event.connect 2 9) 0 (after_subscribes (boot 3) 5 [1])).2.armed
      = false ∧
    (gap_event_cb (ble_gap_event.connect 2 9) 0 (after_subscribes (boot 3) 5 [1])).2.adv_starts
      = (after_subscribes (boot 3) 5 [1]).adv_starts + 1 :=
  ⟨by decide, by decide,
   (failed_connect_gives_no_connection (after_subscribes (boot 3) 5 [1])
      { live := true, subscribed := true } 2 9 0 (by decide)).2.1,
   (failed_connect_gives_no_connection (after_subscribes (boot 3) 5 [1])
      { live := true, subscribed := true } 2 9 0 (by decide)).2.2.1,
   (failed_connect_gives_no_connection (after_subscribes (boot 3) 5 [1])
      { live := true, subscribed := true } 2 9 0 (by decide)).2.2.2.1⟩

/-! ### C13 -/

/-- C13: for every byte b (0..255) that `read_rng` returns in a firing, the value
`_temp_update` computes in its `int16_t` is exactly 10 × b: the multiplication does not
wrap, the value lies in 0..2550 and is a multiple of 10; when the buffer is allocated
the notification handed over is the last one recorded, and its two payload bytes are
the little-endian encoding of 10 × b (low byte (10 b) mod 256, high byte (10 b) div 256),
which decode to 10 × b. Every byte 0..255 is a value `read_rng` returns. -/
theorem update_value_is_ten_times_byte (b : Nat) (f : Firing) (w : World) (hb : b < 256)
    (hread : read_rng f.rng_value = b) (hbuf : f.mbuf_ok = true) :
    toInt16 (toInt16 (read_rng f.rng_value) * 10) = 10 * (b : Int) ∧
    (0 : Int) ≤ 10 * (b : Int) ∧ 10 * (b : Int) ≤ 2550 ∧ (10 : Int) ∣ 10 * (b : Int) ∧
    (_temp_update f w).world.notified.getLast? =
      some { conn_handle := w._conn_handle, attr_handle := w._temp_val_handle,
             payload := le16 (10 * (b : Int)) } ∧
    le16 (10 * (b : Int)) = [10 * b % 256, 10 * b / 256] ∧
    decode_le16 (le16 (10 * (b : Int))) = some (10 * (b : Int)) ∧
    read_rng b = b := by
  have hv := temp_update_value f.rng_value
  rw [hread] at hv
  have hval : toInt16 (toInt16 (read_rng f.rng_value) * 10) = 10 * (b : Int) := by
    rw [hread, hv]
    push_cast
    omega
  have hmod : (10 * (b : Int)) % 65536 = ((10 * b : Nat) : Int) := by
    push_cast
    omega
  refine ⟨hval, by omega, by omega, Dvd.intro _ rfl, ?_, ?_,
    decode_le16_le16 _ (by omega) (by omega), ?_⟩
  · simp only [_temp_update, hbuf, hval]
    by_cases hrc : f.notify_rc = 0
    · simp [hrc, Outcome.world, event_timeout_set, ble_gatts_notify_custom]
    · simp [hrc, Outcome.world, ble_gatts_notify_custom]
  · simp only [le16, hmod, Int.toNat_ofNat]
  · unfold read_rng toUInt8
    omega

/-- Witness for C13: the largest byte, 255, is sent as 2550 = 0x09F6. -/
theorem update_value_is_ten_times_byte_witness :
    (255 : Nat) < 256 ∧
    read_rng 255 = 255 ∧
    (_temp_update { rng_value := 255, mbuf_ok := true, notify_rc := 0 }
        (boot 3)).world.notified.getLast? =
      some { conn_handle := 0, attr_handle := 3, payload := [0xF6, 0x09] } :=
  ⟨by decide, by decide,
   (update_value_is_ten_times_byte 255 { rng_value := 255, mbuf_ok := true, notify_rc := 0 }
      (boot 3) (by decide) (by decide) rfl).2.2.2.2.1.trans (by decide)⟩

end BLEHangboard
